import Mathlib

/-!
Verification development for the sehatlink conversational-agent core.

The definitions below are shallow embeddings of the Python sources:
  app/core/langgraph/utils/state.py        (merge_symptoms, deduplicate_merge)
  app/core/langgraph/agent.py              (start_router, should_continue_*)
  app/core/langgraph/utils/frontend_agent.py   (TriageAgent.run decision tail)
  app/core/langgraph/utils/symptom_agent.py    (SymptomAgentNode.run decision tail)
  app/core/langgraph/utils/prescription_agent.py (PrescriptionAgent.run)
  app/core/langgraph/utils/tool_manager.py (MCPClientPool.execute_tool_calls)
LLM invocations and the json library are modelled as explicit parameters
(outcome values / parse oracles); everything after those calls is translated
line by line from the source.
-/

namespace SehatLink

/-- A symptom entry: the Python side passes plain dicts with these five keys
(`Symptom.dict()` from symptom_agent.py); a missing or `None` value is `none`. -/
structure SymEntry where
  symptom : Option String
  severity : Option String
  duration : Option String
  location : Option String
  additional_details : Option String
deriving DecidableEq

/-- Python `str.strip()`: drop whitespace from both ends (char-list
implementation so that the kernel can evaluate it). -/
def pyStrip (s : String) : String :=
  String.mk (((s.data.dropWhile Char.isWhitespace).reverse.dropWhile Char.isWhitespace).reverse)

/-- ASCII lower-casing of one character, as Python `str.lower()` does on the
ASCII strings handled here. -/
def charLower (c : Char) : Char :=
  if c.toNat ≥ 65 ∧ c.toNat ≤ 90 then Char.ofNat (c.toNat + 32) else c

/-- Python `str.lower()`. -/
def pyLower (s : String) : String :=
  String.mk (s.data.map charLower)

/-- `_normalize_val` from state.py: `None` stays `None`; a string is stripped and
becomes `None` when empty or (case-insensitively) the literal "none". -/
def normalize_val (v : Option String) : Option String :=
  match v with
  | none => none
  | some s =>
    let t := pyStrip s
    if t = "" ∨ pyLower t = "none" then none else some t

/-- Key extraction inside `merge_symptoms.upsert`: `None`/empty symptom is
rejected (`if not sym_raw`), then the stripped lower-cased name must be
non-empty and different from "none". -/
def symKey (e : SymEntry) : Option String :=
  match e.symptom with
  | none => none
  | some s =>
    if s = "" then none
    else
      let k := pyLower (pyStrip s)
      if k = "" ∨ k = "none" then none else some k

/-- The fresh map entry built on first sight of a key (`merge_symptoms`, the
`key not in merged_map` branch): original symptom casing, normalized fields. -/
def newEntryOf (e : SymEntry) : SymEntry :=
  { symptom := e.symptom
    severity := normalize_val e.severity
    duration := normalize_val e.duration
    location := normalize_val e.location
    additional_details := normalize_val e.additional_details }

/-- Contiguous-sublist test on char lists (Python substring semantics). -/
def listInfixB (needle : List Char) : List Char → Bool
  | [] => needle.isEmpty
  | c :: rest => needle.isPrefixOf (c :: rest) || listInfixB needle rest

/-- Python substring test `needle in hay` (contiguous substring). -/
def strContains (hay needle : String) : Bool :=
  listInfixB needle.data hay.data

/-- The smart merge performed on an existing map entry (`merge_symptoms`, the
`else` branch): scalars are overwritten when the incoming normalized value is
present; details are concatenated unless already contained case-insensitively. -/
def mergeInto (cur : SymEntry) (src : SymEntry) : SymEntry :=
  let sev := normalize_val src.severity
  let dur := normalize_val src.duration
  let loc := normalize_val src.location
  let add := normalize_val src.additional_details
  let cur := if sev.isSome then { cur with severity := sev } else cur
  let cur := if dur.isSome then { cur with duration := dur } else cur
  let cur := if loc.isSome then { cur with location := loc } else cur
  match add with
  | none => cur
  | some a =>
    match cur.additional_details with
    | some c =>
      if strContains (pyLower c) (pyLower a) then cur
      else { cur with additional_details := some (c ++ "; " ++ a) }
    | none => { cur with additional_details := some a }

/-- In-place update of the association list standing for `merged_map`
(insertion order is kept by the list itself, mirroring `order`). -/
def updateAssoc : List (String × SymEntry) → String → SymEntry → List (String × SymEntry)
  | [], _, _ => []
  | (k, v) :: rest, key, e =>
    if k = key then (k, mergeInto v e) :: rest
    else (k, v) :: updateAssoc rest key e

/-- `merge_symptoms.upsert`: entries without a usable key are silently dropped;
a new key is appended, an existing key is smart-merged. -/
def upsert (acc : List (String × SymEntry)) (e : SymEntry) : List (String × SymEntry) :=
  match symKey e with
  | none => acc
  | some k =>
    if (acc.lookup k).isSome then updateAssoc acc k e
    else acc ++ [(k, newEntryOf e)]

/-- `merge_symptoms` from state.py: fold existing then incoming through
`upsert`, then read the map back in first-seen key order. -/
def merge_symptoms (existing incoming : List SymEntry) : List SymEntry :=
  ((incoming.foldl upsert (existing.foldl upsert [])).map (·.2))

/-- The dedup loop of `deduplicate_merge`: `seen` is the set of already-kept
cleaned strings. -/
def dedupAux : List String → List String → List String
  | [], _ => []
  | x :: xs, seen =>
    let c := pyStrip x
    if c ≠ "" ∧ c ∉ seen then c :: dedupAux xs (c :: seen)
    else dedupAux xs seen

/-- `deduplicate_merge` from state.py: `None` treated as the empty list, the
two lists concatenated, then whitespace-cleaned and deduplicated keeping
first-seen order. -/
def deduplicate_merge (current new : Option (List String)) : List String :=
  let current := current.getD []
  let new := new.getD []
  dedupAux (current ++ new) []

/-- The `seen` set left behind after `dedupAux` has processed a list
(used to decompose a dedup run over a concatenation). -/
def dedupSeenAfter : List String → List String → List String
  | [], seen => seen
  | x :: xs, seen =>
    let c := pyStrip x
    dedupSeenAfter xs (if c ≠ "" ∧ c ∉ seen then c :: seen else seen)

/-- A tool-call request attached to an AI message (langchain tool call dict:
`name`, `args`, `id`); the argument payload is kept opaque as a string. -/
structure PyToolCall where
  name : String
  args : String
  id : String
deriving DecidableEq

/-- One element of a list-shaped message content.  Python items that are
dicts are modelled with their `type`, `image_url` and `text` keys (a missing
key is `none`); anything that is not a dict is `nondict`. -/
inductive ContentItem where
  | dict (ty : Option String) (image_url : Option String) (text : Option String)
  | nondict
deriving DecidableEq

/-- Message content: either a plain string or a list of items. -/
inductive MsgContent where
  | str (s : String)
  | items (l : List ContentItem)
deriving DecidableEq

/-- A conversation-log message.  `isHuman` is the
`msg.__class__.__name__ == "HumanMessage"` test; `tool_calls` is empty when
the message has no tool-call requests (absence of the attribute behaves
identically to an empty list in every guard of the source). -/
structure Msg where
  isHuman : Bool
  content : MsgContent
  tool_calls : List PyToolCall
deriving DecidableEq

/-- An AI message with plain text content (the `AIMessage(content=...)`
constructor calls of the source). -/
def mkAI (s : String) : Msg :=
  { isHuman := false, content := MsgContent.str s, tool_calls := [] }

/-- The slice of `MedicalAgentState` read by the routing functions of
agent.py.  Fields read through `state.get(...)` are `Option`s (`none` models
an absent key, which is also how Python `None` behaves in each guard). -/
structure RouterState where
  messages : List Msg
  tool_call_count : Option Nat
  error_count : Option Nat
  current_agent : Option String
  prescription_processed : Option Bool
deriving DecidableEq

/-- An item of a list content is an image payload when it is a dict with
`type == "image_url"` (start_router line 29). -/
def isImageItem : ContentItem → Bool
  | ContentItem.dict (some ty) _ _ => ty = "image_url"
  | _ => false

/-- `any(isinstance(i, dict) and i.get("type") == "image_url" for i in content)`
guarded by `isinstance(msg.content, list)`. -/
def contentHasImage : MsgContent → Bool
  | MsgContent.str _ => false
  | MsgContent.items l => l.any isImageItem

/-- `start_router` from agent.py: the last human message is inspected for an
image payload; an unprocessed image routes to "prescription"; otherwise the
`current_agent` value picks the node, defaulting to "triage". -/
def start_router (state : RouterState) : String :=
  let lastHuman := state.messages.reverse.find? (·.isHuman)
  let imageRoute : Bool :=
    match lastHuman with
    | some m => contentHasImage m.content && !(state.prescription_processed.getD false)
    | none => false
  if imageRoute then "prescription"
  else
    let curr := state.current_agent.getD "__default__"
    if curr = "__default__" then "triage"
    else if curr = "triage_agent" then "triage"
    else if curr = "symptom_agent" then "symptom"
    else if curr = "programme_eligibility_agent" then "program"
    else if curr = "doctor_agent" then "doctor"
    else "triage"

/-- `should_continue_symptom` from agent.py.  `none` models the Python crash
on an empty message log (`messages[-1]` raises); otherwise the checks run in
source order: max-iteration guard, error guard, tool-call check, handoffs. -/
def should_continue_symptom (state : RouterState) : Option String :=
  match state.messages.getLast? with
  | none => none
  | some last_message =>
    if state.tool_call_count.getD 0 ≥ 10 then some "max_iterations"
    else if state.error_count.getD 0 ≥ 3 then some "__end__"
    else if last_message.tool_calls ≠ [] then some "tools"
    else if state.current_agent = some "programme_eligibility_agent" then some "program"
    else if state.current_agent = some "doctor_agent" then some "doctor"
    else some "__end__"

/-- `should_continue_program` from agent.py: error guard, tool-call check,
handoffs — no max-iteration guard despite the docstring. -/
def should_continue_program (state : RouterState) : Option String :=
  match state.messages.getLast? with
  | none => none
  | some last_message =>
    if state.error_count.getD 0 ≥ 3 then some "__end__"
    else if last_message.tool_calls ≠ [] then some "tools"
    else if state.current_agent = some "symptom_agent" then some "symptom"
    else if state.current_agent = some "doctor_agent" then some "doctor"
    else some "__end__"

/-- `should_continue_doctor` from agent.py: error guard, tool-call check,
handoffs — no max-iteration guard despite the docstring. -/
def should_continue_doctor (state : RouterState) : Option String :=
  match state.messages.getLast? with
  | none => none
  | some last_message =>
    if state.error_count.getD 0 ≥ 3 then some "__end__"
    else if last_message.tool_calls ≠ [] then some "tools"
    else if state.current_agent = some "symptom_agent" then some "symptom"
    else if state.current_agent = some "programme_eligibility_agent" then some "program"
    else some "__end__"

/-- `should_continue_traige` from agent.py: tool-call check then handoffs;
no circuit breaker at all.  `state["current_agent"]` is a raw subscript, so a
missing key crashes (`none`). -/
def should_continue_traige (state : RouterState) : Option String :=
  match state.messages.getLast? with
  | none => none
  | some last_message =>
    if last_message.tool_calls ≠ [] then some "tools"
    else
      match state.current_agent with
      | none => none
      | some curr =>
        if curr = "symptom_agent" then some "symptom"
        else if curr = "programme_eligibility_agent" then some "program"
        else if curr = "doctor_agent" then some "doctor"
        else some "continue"

/-- The conditional-edge dictionary attached to the "symptom" node in
`build_triage_agent`. -/
def symptomEdges (r : String) : Option String :=
  if r = "tools" then some "symptom_tools"
  else if r = "program" then some "program"
  else if r = "doctor" then some "doctor"
  else if r = "max_iterations" then some "max_iterations"
  else if r = "__end__" then some "urgency"
  else none

/-- The conditional-edge dictionary attached to the "triage" node in
`build_triage_agent`. -/
def triageEdges (r : String) : Option String :=
  if r = "tools" then some "triage_tools"
  else if r = "symptom" then some "symptom"
  else if r = "program" then some "program"
  else if r = "doctor" then some "doctor"
  else if r = "continue" then some "language"
  else none

/-- The conditional-edge dictionary attached to the "program" node in
`build_triage_agent` (END is the graph terminal). -/
def programEdges (r : String) : Option String :=
  if r = "tools" then some "program_tools"
  else if r = "symptom" then some "symptom"
  else if r = "doctor" then some "doctor"
  else if r = "__end__" then some "__END__"
  else none

/-- The conditional-edge dictionary attached to the "doctor" node in
`build_triage_agent` (END is the graph terminal). -/
def doctorEdges (r : String) : Option String :=
  if r = "tools" then some "doctor_tools"
  else if r = "symptom" then some "symptom"
  else if r = "program" then some "program"
  else if r = "__end__" then some "__END__"
  else none

/-- A user-facing log entry: the triage node appends either a raw string
(`delta["user_messages"] = [response_text]` in the tool-call branch) or an
`AIMessage`. -/
inductive UserMsg where
  | raw (s : String)
  | ai (s : String)
deriving DecidableEq

/-- A medication row extracted by the prescription node (dict with keys
`name`, `dose`, `frequency`, `duration`; a missing value is `none`). -/
structure Med where
  name : Option String
  dose : Option String
  frequency : Option String
  duration : Option String
deriving DecidableEq

/-- The delta dictionary returned by a node's `run`: a field is `none` when
the corresponding key is absent from the returned dict.  `messsages` is the
misspelled key the prescription node actually returns. -/
structure Delta where
  current_agent : Option String := none
  messages : Option (List Msg) := none
  user_messages : Option (List UserMsg) := none
  disease_name : Option String := none
  shared_facts : Option (List String) := none
  shared_warnings : Option (List String) := none
  red_flags : Option (List String) := none
  symptom_research_result : Option String := none
  symptoms_collected : Option (List SymEntry) := none
  prescription_data : Option (List Med) := none
  prescription_processed : Option Bool := none
  messsages : Option (List Msg) := none
deriving DecidableEq

/-- The `FrontendFeedback` decision dict as the triage node reads it
(every field accessed through `.get` with a default). -/
structure FrontendFeedbackD where
  response : Option String
  symptom_trigger : Option Bool
  programme_trigger : Option Bool
  doctor_trigger : Option Bool
deriving DecidableEq

/-- Outcome of the triage node's structured-decision call: the whole
`try` block either raises or produces a decision dict. -/
inductive TriageOutcome where
  | raised
  | ok (r : FrontendFeedbackD)
deriving DecidableEq

/-- The default decision dict substituted by `TriageAgent.run` on error. -/
def triage_default_response : FrontendFeedbackD :=
  { response := some "I\x27m sorry, I encountered a technical issue. Could you please repeat that?"
    symptom_trigger := some false
    programme_trigger := some false
    doctor_trigger := some false }

/-- The decision tail of `TriageAgent.run` (frontend_agent.py lines 152-220),
as a function of the reasoning-phase message `llm_response` and the
structured-call outcome. -/
def triage_run (llm_response : Msg) (outcome : TriageOutcome) : Delta :=
  let response :=
    match outcome with
    | TriageOutcome.raised => triage_default_response
    | TriageOutcome.ok r => r
  let symptom_trigger := response.symptom_trigger.getD false
  let programme_trigger := response.programme_trigger.getD false
  let doctor_trigger := response.doctor_trigger.getD false
  let response_text := response.response.getD ""
  if symptom_trigger then { current_agent := some "symptom_agent" }
  else if programme_trigger then { current_agent := some "programme_eligibility_agent" }
  else if doctor_trigger then { current_agent := some "doctor_agent" }
  else
    let has_tool_calls := !llm_response.tool_calls.isEmpty
    if has_tool_calls then
      { current_agent := some "triage_agent"
        messages := some [llm_response]
        user_messages := some [UserMsg.raw response_text] }
    else
      { current_agent := some "triage_agent"
        messages := some [llm_response]
        user_messages := some [UserMsg.ai response_text] }

/-- The `SymptomAgentFeedback` decision dict as the symptom node reads it. -/
structure SymptomFeedbackD where
  response : Option String
  symptoms : Option (List SymEntry)
  programme_trigger : Option Bool
  doctor_trigger : Option Bool
  shared_facts : Option (List String)
  shared_warnings : Option (List String)
  red_flags : Option (List String)
  symptom_research_result : Option String
  disease_name : Option String
deriving DecidableEq

/-- Outcome of the symptom node's structured-decision call: the call raises,
returns `None`, returns an unexpected type, or yields a decision dict
(`BaseModel.dict()` and plain dicts land in the same case). -/
inductive SymOutcome where
  | raised
  | returnedNone
  | badType
  | okFeedback (d : SymptomFeedbackD)
deriving DecidableEq

/-- One pass of `re.sub(r"<[^>]+>", "", _)`: `pending` buffers the characters
of a potential tag, starting with the opening angle bracket. -/
def stripTagsGo : List Char → List Char → List Char
  | [], pending => pending
  | c :: rest, pending =>
    match pending with
    | [] =>
      if c = '<' then stripTagsGo rest ['<']
      else c :: stripTagsGo rest []
    | p :: ps =>
      if c = '>' then
        if ps.isEmpty then p :: '>' :: stripTagsGo rest []
        else stripTagsGo rest []
      else stripTagsGo rest (pending ++ [c])

/-- Remove every `<...>` tag (at least one character between the brackets),
as the fallback path of `SymptomAgentNode.run` does with `re.sub`. -/
def stripTags (s : String) : String :=
  String.mk (stripTagsGo s.data [])

/-- The fallback text computed by `SymptomAgentNode.run` when the structured
call returns `None` (lines 353-365): prefer the raw reasoning-phase content,
tag-stripped when it is a list payload, else a canned question. -/
def symptomFallbackText (m : Msg) : String :=
  let fallback := "I understand you\x27re not feeling well. Could you tell me more about your symptoms?"
  match m.content with
  | MsgContent.str s => s
  | MsgContent.items [] => fallback
  | MsgContent.items (first :: _) =>
    match first with
    | ContentItem.dict _ _ (some raw) =>
      let clean := pyStrip (stripTags raw)
      if clean ≠ "" then clean else fallback
    | _ => fallback

/-- The decision tail of `SymptomAgentNode.run` (symptom_agent.py lines
336-413), as a function of the reasoning-phase message `tool_llm_response`
and the structured-call outcome.  Note the two independent trigger `if`s:
the doctor assignment overwrites the programme assignment. -/
def symptom_run (tool_llm_response : Msg) (outcome : SymOutcome) : Delta :=
  match outcome with
  | SymOutcome.raised =>
    { user_messages := some [UserMsg.ai "Could you please repeat that again?"]
      messages := some [] }
  | SymOutcome.returnedNone =>
    { user_messages := some [UserMsg.ai (symptomFallbackText tool_llm_response)]
      messages := some [tool_llm_response] }
  | SymOutcome.badType =>
    { user_messages := some [UserMsg.ai "Could you please repeat that again?"]
      messages := some [] }
  | SymOutcome.okFeedback parsed =>
    let response_text := parsed.response.getD ""
    let new_symptoms := parsed.symptoms.getD []
    let programme_trigger := parsed.programme_trigger.getD false
    let doctor_trigger := parsed.doctor_trigger.getD false
    let delta : Delta := {}
    let delta :=
      if programme_trigger then { delta with current_agent := some "programme_eligibility_agent" }
      else delta
    let delta :=
      if doctor_trigger then { delta with current_agent := some "doctor_agent" }
      else delta
    { delta with
      disease_name := some (parsed.disease_name.getD "No Disease")
      shared_facts := some (parsed.shared_facts.getD [])
      shared_warnings := some (parsed.shared_warnings.getD [])
      red_flags := some (parsed.red_flags.getD [])
      symptom_research_result := some (parsed.symptom_research_result.getD "")
      symptoms_collected := some new_symptoms
      messages := some [tool_llm_response]
      user_messages := some [UserMsg.ai response_text] }

/-- The scan of `PrescriptionAgent.run` (lines 27-35): every human message is
visited in reversed order and each one holding an image item overwrites
`image_data` (so the earliest such message wins); within a message the first
image item is taken. -/
def findImageData (msgs : List Msg) : Option String :=
  msgs.reverse.foldl
    (fun acc m =>
      if m.isHuman then
        match m.content with
        | MsgContent.items l =>
          match l.find? isImageItem with
          | some (ContentItem.dict _ u _) => u
          | _ => acc
        | _ => acc
      else acc)
    none

/-- Python `str.lstrip` with a backtick argument. -/
def pyLstripBacktick (s : String) : String :=
  String.mk (s.data.dropWhile (fun c => c = Char.ofNat 96))

/-- Python `str.replace` specialised to removing every occurrence of three
consecutive backticks, scanning left to right. -/
def removeTripleBackticksAux : List Char → List Char
  | c1 :: c2 :: c3 :: rest =>
    if c1 = Char.ofNat 96 ∧ c2 = Char.ofNat 96 ∧ c3 = Char.ofNat 96 then
      removeTripleBackticksAux rest
    else c1 :: removeTripleBackticksAux (c2 :: c3 :: rest)
  | l => l

/-- `json_str.replace("```", "")`. -/
def removeTripleBackticks (s : String) : String :=
  String.mk (removeTripleBackticksAux s.data)

/-- The markdown-fence cleanup of `PrescriptionAgent.run` (lines 72-78). -/
def massageJsonStr (s : String) : String :=
  let json_str := pyStrip s
  let json_str :=
    if ("```".data).isPrefixOf json_str.data then pyLstripBacktick json_str else json_str
  if strContains json_str "```" then removeTripleBackticks json_str else json_str

/-- The substring between the first opening and the last closing curly brace
(`find`/`rfind`, lines 81-82); `none` when either is absent. -/
def braceSlice (s : String) : Option String :=
  let cs := s.data
  match cs.findIdx? (fun c => c = Char.ofNat 123), cs.reverse.findIdx? (fun c => c = Char.ofNat 125) with
  | some st, some revIdx =>
    let en := cs.length - 1 - revIdx
    some (String.mk ((cs.drop st).take (en + 1 - st)))
  | _, _ => none

/-- The value found under the "medications" key of the parsed json. -/
inductive MedsVal where
  | list (l : List Med)
  | nonlist
deriving DecidableEq

/-- One line of the medication summary (line 99 of prescription_agent.py). -/
def medLine (m : Med) : String :=
  "- " ++ m.name.getD "Unknown" ++ " (" ++ m.dose.getD "N/A" ++ ", " ++
    m.frequency.getD "N/A" ++ ", " ++ m.duration.getD "N/A" ++ ")"

/-- The joined medication summary (line 98). -/
def medListStr (meds : List Med) : String :=
  String.intercalate "\n" (meds.map medLine)

/-- `PrescriptionAgent.run` as a function of the message log, the OCR-call
outcome and a `json.loads` oracle.  The oracle returns `none` when parsing
raises, otherwise the value of the "medications" key (`none` for a missing
key, which Python defaults to the empty list). -/
def prescription_run (msgs : List Msg) (llmOutcome : Except Unit String)
    (loads : String → Option (Option MedsVal)) : Delta :=
  if msgs.isEmpty then {}
  else
    match findImageData msgs with
    | none => {}
    | some image_data =>
      if image_data = "" then {}
      else
        match llmOutcome with
        | Except.error _ => { messages := some [mkAI "No medications found"] }
        | Except.ok llm_output =>
          let json_str := massageJsonStr llm_output
          let meds : List Med :=
            match braceSlice json_str with
            | none => []
            | some candidate =>
              match loads candidate with
              | none => []
              | some none => []
              | some (some (MedsVal.list l)) => l
              | some (some MedsVal.nonlist) => []
          let response_msg :=
            if meds ≠ [] then
              "I\x27ve extracted these medications from your prescription:\n" ++ medListStr meds
            else
              "I couldnt extract any medications from this image. Please ensure its a clear prescription photo."
          { prescription_data := some meds
            prescription_processed := some true
            messsages := some [mkAI response_msg]
            user_messages := some [UserMsg.ai response_msg] }

/-- A tool handle in the pool's cache: invoking it either raises (with a
message) or returns an already-stringified payload. -/
abbrev PyTool : Type := String → Except String String

/-- A langchain `ToolMessage`; `status` is `none` when the constructor is
called without the keyword (the success case). -/
structure ToolMessage where
  content : String
  tool_call_id : String
  name : String
  status : Option String
deriving DecidableEq

/-- Python `repr` of a list of strings, used in the not-found message. -/
def pyStrListRepr (l : List String) : String :=
  "[" ++ String.intercalate ", " (l.map (fun s => "\x27" ++ s ++ "\x27")) ++ "]"

/-- The body of the per-call loop of `MCPClientPool.execute_tool_calls`
(tool_manager.py lines 237-284): cache miss and raising invocations each
yield an isolated error message; success yields the stringified payload. -/
def execOne (tools_by_name : List (String × PyTool)) (tool_call : PyToolCall) : ToolMessage :=
  match tools_by_name.lookup tool_call.name with
  | none =>
    { content := "Tool \x27" ++ tool_call.name ++ "\x27 not found. Available tools: " ++
        pyStrListRepr (tools_by_name.map (·.1))
      tool_call_id := tool_call.id
      name := tool_call.name
      status := some "error" }
  | some tool =>
    match tool tool_call.args with
    | Except.ok result =>
      { content := result
        tool_call_id := tool_call.id
        name := tool_call.name
        status := none }
    | Except.error e =>
      { content := "Error executing " ++ tool_call.name ++ ": " ++ e
        tool_call_id := tool_call.id
        name := tool_call.name
        status := some "error" }

/-- `MCPClientPool.execute_tool_calls`: the loop appends one message per
call to `tool_messages`. -/
def execute_tool_calls (tools_by_name : List (String × PyTool))
    (tool_calls : List PyToolCall) : List ToolMessage :=
  tool_calls.foldl (fun tool_messages tc => tool_messages ++ [execOne tools_by_name tc]) []

/-- Fixture: an AI message carrying one pending tool-call request. -/
def toolCallMsg : Msg := ⟨false, MsgContent.str "", [⟨"n", "a", "i"⟩]⟩

/-- Fixture for the C1 witness: a state at both circuit-breaker thresholds. -/
def c1State : RouterState := ⟨[toolCallMsg], some 10, some 3, some "x", none⟩

/-- Fixture for the C3 witness: a pending tool call below both thresholds,
with a handoff-target agent name in `current_agent`. -/
def c3State : RouterState := ⟨[toolCallMsg], some 2, some 0, some "doctor_agent", none⟩

/-- Fixture: a human message whose list content carries an image payload. -/
def imgMsg : Msg :=
  ⟨true, MsgContent.items [ContentItem.dict (some "image_url") (some "u") none], []⟩

/-- Fixture for the C7 witness: an unprocessed image with another agent active. -/
def c7ImgState : RouterState := ⟨[imgMsg], none, none, some "doctor_agent", none⟩

/-- Fixture: a plain-text human message. -/
def textMsg : Msg := ⟨true, MsgContent.str "hello", []⟩

/-- Fixture for the C7 witness: no image, doctor agent active. -/
def c7TextState : RouterState := ⟨[textMsg], none, none, some "doctor_agent", none⟩

lemma mem_dedupAux (l : List String) : ∀ (seen : List String) (x : String),
    x ∈ dedupAux l seen ↔ x ∉ seen ∧ x ≠ "" ∧ x ∈ l.map pyStrip := by
  induction l with
  | nil => intro seen x; simp [dedupAux]
  | cons y ys ih =>
    intro seen x
    by_cases h : pyStrip y ≠ "" ∧ pyStrip y ∉ seen
    · simp only [dedupAux, if_pos h, List.mem_cons, List.map_cons, ih]
      constructor
      · rintro (rfl | ⟨hn, hne, hm⟩)
        · exact ⟨h.2, h.1, Or.inl rfl⟩
        · exact ⟨fun hs => hn (Or.inr hs), hne, Or.inr hm⟩
      · rintro ⟨hns, hne, (rfl | hm)⟩
        · exact Or.inl rfl
        · by_cases hx : x = pyStrip y
          · exact Or.inl hx
          · refine Or.inr ⟨fun hc => ?_, hne, hm⟩
            rcases hc with h1 | h2
            · exact hx h1
            · exact hns h2
    · simp only [dedupAux, if_neg h, ih, List.map_cons, List.mem_cons]
      constructor
      · rintro ⟨hns, hne, hm⟩
        exact ⟨hns, hne, Or.inr hm⟩
      · rintro ⟨hns, hne, (rfl | hm)⟩
        · rcases not_and_or.mp h with h1 | h2
          · exact absurd (not_not.mp h1) hne
          · exact absurd (not_not.mp h2) hns
        · exact ⟨hns, hne, hm⟩

lemma nodup_dedupAux (l : List String) : ∀ seen : List String, (dedupAux l seen).Nodup := by
  induction l with
  | nil => intro seen; simp [dedupAux]
  | cons y ys ih =>
    intro seen
    by_cases h : pyStrip y ≠ "" ∧ pyStrip y ∉ seen
    · simp only [dedupAux, if_pos h]
      refine List.nodup_cons.mpr ⟨fun hmem => ?_, ih _⟩
      have := (mem_dedupAux ys (pyStrip y :: seen) (pyStrip y)).mp hmem
      exact this.1 (List.mem_cons_self _ _)
    · simp only [dedupAux, if_neg h]
      exact ih _

lemma dedupAux_append (a : List String) : ∀ (seen b : List String),
    dedupAux (a ++ b) seen = dedupAux a seen ++ dedupAux b (dedupSeenAfter a seen) := by
  induction a with
  | nil => intro seen b; simp [dedupAux, dedupSeenAfter]
  | cons y ys ih =>
    intro seen b
    by_cases h : pyStrip y ≠ "" ∧ pyStrip y ∉ seen
    · simp only [List.cons_append, dedupAux, dedupSeenAfter, if_pos h, List.append_eq]
      rw [ih]
    · simp only [List.cons_append, dedupAux, dedupSeenAfter, if_neg h, List.append_eq]
      rw [ih]

lemma dedupAux_eq_self (l : List String) : ∀ seen : List String,
    (∀ x ∈ l, pyStrip x = x ∧ x ≠ "") → l.Nodup → (∀ x ∈ l, x ∉ seen) →
    dedupAux l seen = l := by
  induction l with
  | nil => intro seen _ _ _; rfl
  | cons y ys ih =>
    intro seen hclean hnodup hseen
    obtain ⟨hy, hyne⟩ := hclean y (List.mem_cons_self _ _)
    have hys := hseen y (List.mem_cons_self _ _)
    have hcond : y ≠ "" ∧ y ∉ seen := ⟨hyne, hys⟩
    simp only [dedupAux, hy, if_pos hcond]
    congr 1
    refine ih (y :: seen) (fun x hx => hclean x (List.mem_cons_of_mem _ hx))
      (List.nodup_cons.mp hnodup).2 (fun x hx => ?_)
    intro hmem
    rcases List.mem_cons.mp hmem with h1 | h2
    · exact (List.nodup_cons.mp hnodup).1 (h1 ▸ hx)
    · exact hseen x (List.mem_cons_of_mem _ hx) h2

/-- C9: the dedupe-merge policy preserves first-seen order: merging
["a","b"] with ["b","c"] yields exactly ["a","b","c"]; in general the
dedup of the current list is an unchanged front segment of the merged
result (new entries are only unioned in behind it), membership in the
result is exactly membership of a non-empty whitespace-stripped form of
some input entry (whitespace-normalized equality as the dedup key), and
the result carries no duplicates. -/
theorem C9_dedup_merge_order :
    deduplicate_merge (some ["a", "b"]) (some ["b", "c"]) = ["a", "b", "c"] ∧
    (∀ cur new : List String, ∃ rest,
      deduplicate_merge (some cur) (some new) = deduplicate_merge (some cur) (some []) ++ rest) ∧
    (∀ (cur new : List String) (x : String),
      x ∈ deduplicate_merge (some cur) (some new) ↔ x ≠ "" ∧ x ∈ (cur ++ new).map pyStrip) ∧
    (∀ cur new : List String, (deduplicate_merge (some cur) (some new)).Nodup) := by
  refine ⟨by decide, ?_, ?_, ?_⟩
  · intro cur new
    refine ⟨dedupAux new (dedupSeenAfter cur []), ?_⟩
    simp only [deduplicate_merge, Option.getD_some, List.append_nil]
    exact dedupAux_append cur [] new
  · intro cur new x
    simp only [deduplicate_merge, Option.getD_some]
    rw [mem_dedupAux]
    simp
  · intro cur new
    simp only [deduplicate_merge, Option.getD_some]
    exact nodup_dedupAux _ []

lemma lookupNone (k : String) : ∀ acc : List (String × SymEntry),
    (∀ p ∈ acc, p.1 ≠ k) → acc.lookup k = none := by
  intro acc
  induction acc with
  | nil => intro _; rfl
  | cons p ps ih =>
    intro h
    have hp := h p (List.mem_cons_self _ _)
    have hb : (k == p.1) = false := beq_eq_false_iff_ne.mpr (fun he => hp he.symm)
    simp only [List.lookup, hb]
    exact ih (fun q hq => h q (List.mem_cons_of_mem _ hq))

lemma upsert_skip (acc : List (String × SymEntry)) (e : SymEntry)
    (h : symKey e = none) : upsert acc e = acc := by
  simp [upsert, h]

lemma upsert_new (acc : List (String × SymEntry)) (e : SymEntry) (k : String)
    (hk : symKey e = some k) (h : ∀ p ∈ acc, p.1 ≠ k) :
    upsert acc e = acc ++ [(k, newEntryOf e)] := by
  simp [upsert, hk, lookupNone k acc h]

lemma foldl_upsert_normalized : ∀ (L : List SymEntry) (acc : List (String × SymEntry)),
    (∀ e ∈ L, (symKey e).isSome ∧ newEntryOf e = e) →
    (L.map symKey).Nodup →
    (∀ e ∈ L, ∀ p ∈ acc, symKey e ≠ some p.1) →
    (L.foldl upsert acc).map (·.2) = acc.map (·.2) ++ L := by
  intro L
  induction L with
  | nil => intro acc _ _ _; simp
  | cons e rest ih =>
    intro acc hinv hnodup hdisj
    obtain ⟨hks, hne⟩ := hinv e (List.mem_cons_self _ _)
    obtain ⟨k, hk⟩ := Option.isSome_iff_exists.mp hks
    have hnd1 : symKey e ∉ rest.map symKey := by
      have h := hnodup
      simp only [List.map_cons, List.nodup_cons] at h
      exact h.1
    have hnd2 : (rest.map symKey).Nodup := by
      have h := hnodup
      simp only [List.map_cons, List.nodup_cons] at h
      exact h.2
    have hacc : ∀ p ∈ acc, p.1 ≠ k := by
      intro p hp heq
      exact hdisj e (List.mem_cons_self _ _) p hp (by rw [hk, heq])
    have hstep : upsert acc e = acc ++ [(k, e)] := by
      rw [upsert_new acc e k hk hacc, hne]
    simp only [List.foldl_cons, hstep]
    rw [ih (acc ++ [(k, e)]) (fun x hx => hinv x (List.mem_cons_of_mem _ hx)) hnd2 ?_]
    · simp
    · intro x hx p hp
      rcases List.mem_append.mp hp with h1 | h2
      · exact hdisj x (List.mem_cons_of_mem _ hx) p h1
      · have hpk : p = (k, e) := by simpa using h2
        subst hpk
        intro hxk
        have hsame : symKey x = symKey e := by rw [hxk, hk]
        exact hnd1 (hsame ▸ (List.mem_map_of_mem symKey hx))

/-- C5 counterexample: an empty update is not byte-for-byte the identity:
`deduplicate_merge` collapses duplicates of the existing list and
`merge_symptoms` strips whitespace inside existing entries. -/
theorem C5_counterexample :
    deduplicate_merge (some ["a", "a"]) (some []) ≠ ["a", "a"] ∧
    merge_symptoms [⟨some "fever", some " mild ", none, none, none⟩] [] ≠
      [⟨some "fever", some " mild ", none, none, none⟩] := by
  decide

/-- C5 amended: applying an empty update (empty list or None) is a no-op
only on already-normalized values: `deduplicate_merge current []` and
`deduplicate_merge current None` return `current` unchanged when its
entries are whitespace-clean, non-empty and duplicate-free, and
`merge_symptoms existing []` returns `existing` unchanged when its entries
carry valid pairwise-distinct keys and already-normalized fields; on other
values an empty update normalizes rather than preserving byte-for-byte. -/
theorem C5_amended_empty_update :
    (∀ l : List String, (∀ x ∈ l, pyStrip x = x ∧ x ≠ "") → l.Nodup →
      deduplicate_merge (some l) (some []) = l ∧ deduplicate_merge (some l) none = l) ∧
    (∀ L : List SymEntry, (∀ e ∈ L, (symKey e).isSome ∧ newEntryOf e = e) →
      (L.map symKey).Nodup → merge_symptoms L [] = L) := by
  constructor
  · intro l hclean hnodup
    have h : dedupAux l [] = l :=
      dedupAux_eq_self l [] hclean hnodup (by intro x _ hx; exact absurd hx (List.not_mem_nil x))
    constructor <;> simpa [deduplicate_merge] using h
  · intro L hinv hnodup
    have := foldl_upsert_normalized L [] hinv hnodup (by intro e _ p hp; exact absurd hp (List.not_mem_nil p))
    simpa [merge_symptoms] using this

/-- C5 witness: the amended theorem applied at concrete normalized inputs. -/
theorem C5_amended_witness :
    ((∀ x ∈ ["a", "b"], pyStrip x = x ∧ x ≠ "") ∧ (["a", "b"] : List String).Nodup ∧
      (∀ e ∈ [(⟨some "fever", some "mild", none, none, none⟩ : SymEntry)],
        (symKey e).isSome ∧ newEntryOf e = e) ∧
      ([(⟨some "fever", some "mild", none, none, none⟩ : SymEntry)].map symKey).Nodup) ∧
    (deduplicate_merge (some ["a", "b"]) (some []) = ["a", "b"] ∧
      deduplicate_merge (some ["a", "b"]) none = ["a", "b"]) ∧
    merge_symptoms [(⟨some "fever", some "mild", none, none, none⟩ : SymEntry)] [] =
      [(⟨some "fever", some "mild", none, none, none⟩ : SymEntry)] :=
  ⟨⟨by decide, by decide, by decide, by decide⟩,
    C5_amended_empty_update.1 ["a", "b"] (by decide) (by decide),
    C5_amended_empty_update.2 _ (by decide) (by decide)⟩

lemma merge_pair (e i : SymEntry) (k : String)
    (he : symKey e = some k) (hi : symKey i = some k) :
    merge_symptoms [e] [i] = [mergeInto (newEntryOf e) i] := by
  simp [merge_symptoms, upsert, he, hi, List.lookup, updateAssoc]

lemma mergeInto_fields (cur src : SymEntry) :
    (mergeInto cur src).symptom = cur.symptom ∧
    (mergeInto cur src).severity =
      (if (normalize_val src.severity).isSome then normalize_val src.severity
       else cur.severity) ∧
    (mergeInto cur src).duration =
      (if (normalize_val src.duration).isSome then normalize_val src.duration
       else cur.duration) ∧
    (mergeInto cur src).location =
      (if (normalize_val src.location).isSome then normalize_val src.location
       else cur.location) ∧
    (mergeInto cur src).additional_details =
      (match normalize_val src.additional_details, cur.additional_details with
       | none, c => c
       | some a, some c =>
         if strContains (pyLower c) (pyLower a) then some c else some (c ++ "; " ++ a)
       | some a, none => some a) := by
  unfold mergeInto
  cases hs : (normalize_val src.severity).isSome <;>
    cases hd : (normalize_val src.duration).isSome <;>
      cases hl : (normalize_val src.location).isSome <;>
        cases ha : normalize_val src.additional_details <;>
          cases hc : cur.additional_details <;>
            simp [hs, hd, hl, ha, hc] <;> split <;> simp [hc]

/-- C4: keyed-upsert determinism on the spec example — merging
fever/mild with fever/high/"spiked at night" overwrites the severity and
installs the details; a further fever/"also chills" update concatenates
the details and leaves severity untouched; and in general on a matched
key a scalar sub-field is overwritten exactly when the incoming
normalized value is non-empty, while details concatenate with a
case-insensitive containment check as the deduplication. -/
theorem C4_keyed_upsert_determinism :
    (merge_symptoms [⟨some "fever", some "mild", none, none, none⟩]
        [⟨some "fever", some "high", none, none, some "spiked at night"⟩] =
      [⟨some "fever", some "high", none, none, some "spiked at night"⟩] ∧
     merge_symptoms [⟨some "fever", some "high", none, none, some "spiked at night"⟩]
        [⟨some "fever", none, none, none, some "also chills"⟩] =
      [⟨some "fever", some "high", none, none, some "spiked at night; also chills"⟩]) ∧
    (∀ (e i : SymEntry) (k : String), symKey e = some k → symKey i = some k →
      ∃ m, merge_symptoms [e] [i] = [m] ∧
        m.symptom = e.symptom ∧
        (normalize_val i.severity = none → m.severity = normalize_val e.severity) ∧
        (∀ s, normalize_val i.severity = some s → m.severity = some s) ∧
        (normalize_val i.duration = none → m.duration = normalize_val e.duration) ∧
        (∀ s, normalize_val i.duration = some s → m.duration = some s) ∧
        (normalize_val i.location = none → m.location = normalize_val e.location) ∧
        (∀ s, normalize_val i.location = some s → m.location = some s) ∧
        (normalize_val i.additional_details = none →
          m.additional_details = normalize_val e.additional_details) ∧
        (∀ a, normalize_val i.additional_details = some a →
          normalize_val e.additional_details = none → m.additional_details = some a) ∧
        (∀ a c, normalize_val i.additional_details = some a →
          normalize_val e.additional_details = some c →
          (strContains (pyLower c) (pyLower a) = true → m.additional_details = some c) ∧
          (strContains (pyLower c) (pyLower a) = false →
            m.additional_details = some (c ++ "; " ++ a)))) := by
  refine ⟨⟨by decide, by decide⟩, ?_⟩
  intro e i k he hi
  refine ⟨mergeInto (newEntryOf e) i, merge_pair e i k he hi, ?_⟩
  obtain ⟨hsym, hsev, hdur, hloc, hadd⟩ := mergeInto_fields (newEntryOf e) i
  rw [hsym, hsev, hdur, hloc, hadd]
  simp only [newEntryOf]
  refine ⟨by trivial, ?_, ?_, ?_, ?_, ?_, ?_, ?_, ?_, ?_⟩
  · intro hs; simp [hs]
  · intro s hs; simp [hs]
  · intro hd; simp [hd]
  · intro s hd; simp [hd]
  · intro hl; simp [hl]
  · intro s hl; simp [hl]
  · intro ha; simp [ha]
  · intro a ha hc; simp [ha, hc]
  · intro a c ha hc
    constructor <;> intro hsub <;> simp [ha, hc, hsub]

/-- C4 witness: the general clause applied at a concrete matched pair. -/
theorem C4_witness :
    (symKey ⟨some "Fever", some "mild", none, none, none⟩ = some "fever" ∧
     symKey ⟨some "fever ", some "  ", some "2 days", none, some "worse at night"⟩ = some "fever") ∧
    ∃ m, merge_symptoms [⟨some "Fever", some "mild", none, none, none⟩]
        [⟨some "fever ", some "  ", some "2 days", none, some "worse at night"⟩] = [m] ∧
      m.symptom = some "Fever" ∧ m.severity = some "mild" ∧
      m.duration = some "2 days" ∧ m.additional_details = some "worse at night" := by
  refine ⟨⟨by decide, by decide⟩, ?_⟩
  obtain ⟨m, hm, hsym, hsev0, hsevS, hdur0, hdurS, hloc0, hlocS, hadd0, haddN, haddC⟩ :=
    C4_keyed_upsert_determinism.2 ⟨some "Fever", some "mild", none, none, none⟩
      ⟨some "fever ", some "  ", some "2 days", none, some "worse at night"⟩ "fever"
      (by decide) (by decide)
  refine ⟨m, hm, by simpa using hsym, ?_, ?_, ?_⟩
  · rw [hsev0 (by decide)]; decide
  · exact hdurS "2 days" (by decide)
  · exact haddN "worse at night" (by decide) (by decide)

lemma symKey_none_of_invalid (e : SymEntry)
    (h : e.symptom = none ∨ ∃ s, e.symptom = some s ∧
      (pyLower (pyStrip s) = "" ∨ pyLower (pyStrip s) = "none")) :
    symKey e = none := by
  rcases h with h | ⟨s, hs, hk⟩
  · simp [symKey, h]
  · simp only [symKey, hs]
    by_cases hse : s = ""
    · simp [hse]
    · simp only [if_neg hse]
      rw [if_pos]
      exact hk

/-- C10: `merge_symptoms` silently drops an entry whose symptom is absent
or whose trimmed lower-cased name is empty or the literal "none" — both
from the existing and from the incoming side; valid entries are keyed by
the trimmed lower-cased symptom name, and the merged entry keeps the
symptom string (original casing) of the first occurrence of that key. -/
theorem C10_key_dropping_and_casing :
    (∀ (existing incoming : List SymEntry) (e : SymEntry),
      (e.symptom = none ∨ ∃ s, e.symptom = some s ∧
        (pyLower (pyStrip s) = "" ∨ pyLower (pyStrip s) = "none")) →
      merge_symptoms existing (e :: incoming) = merge_symptoms existing incoming ∧
      merge_symptoms (e :: existing) incoming = merge_symptoms existing incoming) ∧
    (∀ (e i : SymEntry) (ke ki : String), symKey e = some ke → symKey i = some ki → ke = ki →
      ∃ m, merge_symptoms [] [e, i] = [m] ∧ m.symptom = e.symptom) := by
  constructor
  · intro existing incoming e h
    have hk := symKey_none_of_invalid e h
    constructor
    · simp [merge_symptoms, upsert_skip _ _ hk]
    · simp [merge_symptoms, upsert_skip _ _ hk]
  · intro e i ke ki he hi hkk
    subst hkk
    refine ⟨mergeInto (newEntryOf e) i, ?_, ?_⟩
    · simp [merge_symptoms, upsert, he, hi, List.lookup, updateAssoc]
    · rw [(mergeInto_fields (newEntryOf e) i).1]
      simp [newEntryOf]

/-- C10 witness: a symptom-less entry and a "None"-named entry are dropped,
and differently-cased occurrences of one symptom merge into a single entry
keeping the first casing. -/
theorem C10_witness :
    ((⟨none, some "high", none, none, none⟩ : SymEntry).symptom = none ∨
      ∃ s, (⟨none, some "high", none, none, none⟩ : SymEntry).symptom = some s ∧
        (pyLower (pyStrip s) = "" ∨ pyLower (pyStrip s) = "none")) ∧
    (merge_symptoms [] ([⟨none, some "high", none, none, none⟩] : List SymEntry) =
      merge_symptoms [] [] ∧
     merge_symptoms ([⟨none, some "high", none, none, none⟩] : List SymEntry) [] =
      merge_symptoms [] []) ∧
    (symKey ⟨some "Fever", none, none, none, none⟩ = some "fever" ∧
     symKey ⟨some " FEVER ", some "high", none, none, none⟩ = some "fever") ∧
    (∃ m, merge_symptoms []
        [⟨some "Fever", none, none, none, none⟩, ⟨some " FEVER ", some "high", none, none, none⟩] =
        [m] ∧ m.symptom = some "Fever") :=
  ⟨Or.inl rfl,
    C10_key_dropping_and_casing.1 [] [] ⟨none, some "high", none, none, none⟩ (Or.inl rfl),
    ⟨by decide, by decide⟩,
    C10_key_dropping_and_casing.2 ⟨some "Fever", none, none, none, none⟩
      ⟨some " FEVER ", some "high", none, none, none⟩ "fever" "fever"
      (by decide) (by decide) rfl⟩

/-- C1 counterexample: the claim fails for the program and triage
continuation functions — `should_continue_program` routes a pending tool
request to "tools" even with `tool_call_count = 10` (it has no
max-iteration guard, and "max_iterations" is not even in its codomain),
and `should_continue_traige` routes to "tools" even with
`error_count = 3` instead of ending the turn. -/
theorem C1_counterexample :
    should_continue_program
        ⟨[⟨false, MsgContent.str "", [⟨"n", "a", "i"⟩]⟩], some 10, some 0,
          some "symptom_agent", none⟩ = some "tools" ∧
    (some "tools" : Option String) ≠ some "max_iterations" ∧
    should_continue_traige
        ⟨[⟨false, MsgContent.str "", [⟨"n", "a", "i"⟩]⟩], some 0, some 3,
          some "triage_agent", none⟩ = some "tools" ∧
    (some "tools" : Option String) ≠ some "__end__" := by
  decide

/-- C1 amended: the circuit breakers are not uniform across the
continuation functions — only `should_continue_symptom` applies the
max-iteration guard (routing to "max_iterations" at `tool_call_count ≥ 10`)
and then the error guard; `should_continue_program` and
`should_continue_doctor` end the turn at `error_count ≥ 3` but route
pending tool requests to "tools" regardless of `tool_call_count`; and
`should_continue_traige` applies neither breaker, routing any pending tool
request to "tools". -/
theorem C1_amended_circuit_breakers (s : RouterState) (last : Msg)
    (hlast : s.messages.getLast? = some last) :
    (s.tool_call_count.getD 0 ≥ 10 → should_continue_symptom s = some "max_iterations") ∧
    (s.tool_call_count.getD 0 < 10 → s.error_count.getD 0 ≥ 3 →
      should_continue_symptom s = some "__end__") ∧
    (s.error_count.getD 0 ≥ 3 →
      should_continue_program s = some "__end__" ∧ should_continue_doctor s = some "__end__") ∧
    (s.error_count.getD 0 < 3 → last.tool_calls ≠ [] →
      should_continue_program s = some "tools" ∧ should_continue_doctor s = some "tools") ∧
    (last.tool_calls ≠ [] → should_continue_traige s = some "tools") := by
  refine ⟨?_, ?_, ?_, ?_, ?_⟩
  · intro h
    simp only [should_continue_symptom, hlast]
    rw [if_pos h]
  · intro h1 h2
    simp only [should_continue_symptom, hlast]
    rw [if_neg (by omega), if_pos h2]
  · intro h
    constructor
    · simp only [should_continue_program, hlast]
      rw [if_pos h]
    · simp only [should_continue_doctor, hlast]
      rw [if_pos h]
  · intro h1 h2
    constructor
    · simp only [should_continue_program, hlast]
      rw [if_neg (by omega), if_pos h2]
    · simp only [should_continue_doctor, hlast]
      rw [if_neg (by omega), if_pos h2]
  · intro h
    simp only [should_continue_traige, hlast]
    rw [if_pos h]

/-- C1 witness: the amended theorem applied at a state sitting on both
thresholds with a pending tool call. -/
theorem C1_amended_witness :
    c1State.messages.getLast? = some toolCallMsg ∧
    ((c1State.tool_call_count.getD 0 ≥ 10 →
        should_continue_symptom c1State = some "max_iterations") ∧
     (c1State.tool_call_count.getD 0 < 10 → c1State.error_count.getD 0 ≥ 3 →
        should_continue_symptom c1State = some "__end__") ∧
     (c1State.error_count.getD 0 ≥ 3 →
        should_continue_program c1State = some "__end__" ∧
        should_continue_doctor c1State = some "__end__") ∧
     (c1State.error_count.getD 0 < 3 → toolCallMsg.tool_calls ≠ [] →
        should_continue_program c1State = some "tools" ∧
        should_continue_doctor c1State = some "tools") ∧
     (toolCallMsg.tool_calls ≠ [] → should_continue_traige c1State = some "tools")) :=
  ⟨by decide, C1_amended_circuit_breakers c1State toolCallMsg (by decide)⟩

/-- C3: when the last message carries tool-call requests and neither
circuit breaker fires, every continuation function routes to "tools"
(never to a handoff target, whatever `current_agent` holds), and the
graph's edge dictionaries send that decision to the node's own
tool-execution node. -/
theorem C3_tool_priority (s : RouterState) (last : Msg)
    (hlast : s.messages.getLast? = some last)
    (htc : last.tool_calls ≠ [])
    (hcount : s.tool_call_count.getD 0 < 10)
    (herr : s.error_count.getD 0 < 3) :
    should_continue_symptom s = some "tools" ∧
    should_continue_program s = some "tools" ∧
    should_continue_doctor s = some "tools" ∧
    should_continue_traige s = some "tools" ∧
    (should_continue_symptom s).bind symptomEdges = some "symptom_tools" ∧
    (should_continue_program s).bind programEdges = some "program_tools" ∧
    (should_continue_doctor s).bind doctorEdges = some "doctor_tools" ∧
    (should_continue_traige s).bind triageEdges = some "triage_tools" := by
  have h1 : should_continue_symptom s = some "tools" := by
    simp only [should_continue_symptom, hlast]
    rw [if_neg (by omega), if_neg (by omega), if_pos htc]
  have h2 : should_continue_program s = some "tools" := by
    simp only [should_continue_program, hlast]
    rw [if_neg (by omega), if_pos htc]
  have h3 : should_continue_doctor s = some "tools" := by
    simp only [should_continue_doctor, hlast]
    rw [if_neg (by omega), if_pos htc]
  have h4 : should_continue_traige s = some "tools" := by
    simp only [should_continue_traige, hlast]
    rw [if_pos htc]
  refine ⟨h1, h2, h3, h4, ?_, ?_, ?_, ?_⟩
  · rw [h1]; decide
  · rw [h2]; decide
  · rw [h3]; decide
  · rw [h4]; decide

/-- C3 witness: the theorem applied at a state holding a pending tool call,
counters below both thresholds and a different agent named in
`current_agent`. -/
theorem C3_witness :
    (c3State.messages.getLast? = some toolCallMsg ∧ toolCallMsg.tool_calls ≠ [] ∧
      c3State.tool_call_count.getD 0 < 10 ∧ c3State.error_count.getD 0 < 3) ∧
    (should_continue_symptom c3State = some "tools" ∧
     should_continue_program c3State = some "tools" ∧
     should_continue_doctor c3State = some "tools" ∧
     should_continue_traige c3State = some "tools" ∧
     (should_continue_symptom c3State).bind symptomEdges = some "symptom_tools" ∧
     (should_continue_program c3State).bind programEdges = some "program_tools" ∧
     (should_continue_doctor c3State).bind doctorEdges = some "doctor_tools" ∧
     (should_continue_traige c3State).bind triageEdges = some "triage_tools") :=
  ⟨⟨by decide, by decide, by decide, by decide⟩,
    C3_tool_priority c3State toolCallMsg (by decide) (by decide) (by decide) (by decide)⟩

/-- C2 counterexample: with both routing flags true the symptom node's
delta carries "doctor_agent" — the flag whose `if` is written second —
even though the programme flag (checked first) is also true, so the later
flag wins over the earlier true one, contradicting first-true-wins. -/
theorem C2_counterexample :
    (symptom_run (mkAI "hi")
        (SymOutcome.okFeedback
          ⟨some "ok", some [], some true, some true, some [], some [], some [],
            some "", some "No Disease"⟩)).current_agent = some "doctor_agent" ∧
    ("doctor_agent" : String) ≠ "programme_eligibility_agent" := by
  decide

/-- C2 amended: each node overwrites `active_agent` with exactly one value,
but the priority direction differs — the triage node honors the FIRST true
flag in order symptom, programme, doctor (early returns), while the symptom
node uses two independent assignments so the LAST true flag wins (doctor
overrides programme when both are set; no flag set leaves `current_agent`
untouched). -/
theorem C2_amended_flag_priority :
    (∀ (r : FrontendFeedbackD) (llm : Msg),
      (triage_run llm (TriageOutcome.ok r)).current_agent =
        some (if r.symptom_trigger.getD false then "symptom_agent"
              else if r.programme_trigger.getD false then "programme_eligibility_agent"
              else if r.doctor_trigger.getD false then "doctor_agent"
              else "triage_agent")) ∧
    (∀ (d : SymptomFeedbackD) (llm : Msg),
      (symptom_run llm (SymOutcome.okFeedback d)).current_agent =
        (if d.doctor_trigger.getD false then some "doctor_agent"
         else if d.programme_trigger.getD false then some "programme_eligibility_agent"
         else none)) := by
  constructor
  · intro r llm
    by_cases hs : r.symptom_trigger.getD false
    · simp [triage_run, hs]
    · by_cases hp : r.programme_trigger.getD false
      · simp [triage_run, hs, hp]
      · by_cases hd : r.doctor_trigger.getD false
        · simp [triage_run, hs, hp, hd]
        · simp only [triage_run]
          cases h : llm.tool_calls.isEmpty <;> simp [hs, hp, hd, h]
  · intro d llm
    by_cases hd : d.doctor_trigger.getD false
    · by_cases hp : d.programme_trigger.getD false <;> simp [symptom_run, hd, hp]
    · by_cases hp : d.programme_trigger.getD false <;> simp [symptom_run, hd, hp]

/-- C6 counterexample: on a structured-decision failure the triage node
does NOT return a bare please-repeat delta — it overwrites `current_agent`
with "triage_agent" and appends the reasoning-phase message, which here
carries a pending tool-call request, so tool dispatch can still occur. -/
theorem C6_counterexample :
    (triage_run toolCallMsg TriageOutcome.raised).messages = some [toolCallMsg] ∧
    toolCallMsg.tool_calls ≠ [] ∧
    (triage_run toolCallMsg TriageOutcome.raised).current_agent = some "triage_agent" := by
  decide

/-- C6 amended: only the symptom node's raised and unexpected-type paths
return the bare please-repeat delta (generic user message, empty message
delta, `current_agent` untouched); its None-result path re-appends the
reasoning-phase message (so pending tool requests still dispatch) though it
leaves `current_agent` untouched; and the triage node's failure path
substitutes an all-false default decision and then proceeds normally:
it sets `current_agent` to "triage_agent" and appends the (possibly
tool-calling) reasoning-phase message next to an apology text. -/
theorem C6_amended_failure_paths :
    (∀ m : Msg,
      symptom_run m SymOutcome.raised =
        { user_messages := some [UserMsg.ai "Could you please repeat that again?"]
          messages := some [] } ∧
      symptom_run m SymOutcome.badType =
        { user_messages := some [UserMsg.ai "Could you please repeat that again?"]
          messages := some [] }) ∧
    (∀ m : Msg,
      (symptom_run m SymOutcome.returnedNone).messages = some [m] ∧
      (symptom_run m SymOutcome.returnedNone).current_agent = none) ∧
    (∀ m : Msg,
      (triage_run m TriageOutcome.raised).current_agent = some "triage_agent" ∧
      (triage_run m TriageOutcome.raised).messages = some [m] ∧
      (triage_run m TriageOutcome.raised).user_messages =
        some [if m.tool_calls.isEmpty then
                UserMsg.ai
                  "I\x27m sorry, I encountered a technical issue. Could you please repeat that?"
              else
                UserMsg.raw
                  "I\x27m sorry, I encountered a technical issue. Could you please repeat that?"]) := by
  refine ⟨fun m => ⟨rfl, rfl⟩, fun m => ⟨rfl, rfl⟩, fun m => ?_⟩
  simp only [triage_run, triage_default_response]
  cases h : m.tool_calls.isEmpty <;> simp [h]

/-- C7: entry routing — an image payload on the last human message with
`prescription_processed` unset or false routes to "prescription" whatever
`active_agent` holds; a successful prescription run returns a delta with
`prescription_processed = true`; and without an unprocessed image the
router dispatches on `current_agent`, defaulting to "triage" for a first
turn (no agent recorded) or an unknown agent name. -/
theorem C7_entry_routing :
    (∀ (s : RouterState) (m : Msg),
      s.messages.reverse.find? (·.isHuman) = some m →
      contentHasImage m.content = true →
      s.prescription_processed.getD false = false →
      start_router s = "prescription") ∧
    (∀ (msgs : List Msg) (u out : String) (loads : String → Option (Option MedsVal)),
      findImageData msgs = some u → u ≠ "" →
      (prescription_run msgs (Except.ok out) loads).prescription_processed = some true) ∧
    (∀ s : RouterState,
      (∀ m, s.messages.reverse.find? (·.isHuman) = some m →
        (contentHasImage m.content = false ∨ s.prescription_processed = some true)) →
      (s.current_agent = none → start_router s = "triage") ∧
      (s.current_agent = some "triage_agent" → start_router s = "triage") ∧
      (s.current_agent = some "symptom_agent" → start_router s = "symptom") ∧
      (s.current_agent = some "programme_eligibility_agent" → start_router s = "program") ∧
      (s.current_agent = some "doctor_agent" → start_router s = "doctor") ∧
      (∀ a, s.current_agent = some a →
        a ∉ (["__default__", "triage_agent", "symptom_agent", "programme_eligibility_agent",
          "doctor_agent"] : List String) → start_router s = "triage")) := by
  refine ⟨?_, ?_, ?_⟩
  · intro s m hfind himg hproc
    simp [start_router, hfind, himg, hproc]
  · intro msgs u out loads hfind hu
    cases msgs with
    | nil => simp [findImageData] at hfind
    | cons a l => simp [prescription_run, hfind, hu]
  · intro s h
    have himg : ∀ m, s.messages.reverse.find? (·.isHuman) = some m →
        (contentHasImage m.content && !(s.prescription_processed.getD false)) = false := by
      intro m hm
      rcases h m hm with h1 | h2
      · simp [h1]
      · simp [h2]
    refine ⟨?_, ?_, ?_, ?_, ?_, ?_⟩
    · intro hca
      cases hfind : s.messages.reverse.find? (·.isHuman) with
      | none => simp [start_router, hfind, hca]
      | some m => simp [start_router, hfind, hca, himg m hfind]
    · intro hca
      cases hfind : s.messages.reverse.find? (·.isHuman) with
      | none => simp [start_router, hfind, hca]
      | some m => simp [start_router, hfind, hca, himg m hfind]
    · intro hca
      cases hfind : s.messages.reverse.find? (·.isHuman) with
      | none => simp [start_router, hfind, hca]
      | some m => simp [start_router, hfind, hca, himg m hfind]
    · intro hca
      cases hfind : s.messages.reverse.find? (·.isHuman) with
      | none => simp [start_router, hfind, hca]
      | some m => simp [start_router, hfind, hca, himg m hfind]
    · intro hca
      cases hfind : s.messages.reverse.find? (·.isHuman) with
      | none => simp [start_router, hfind, hca]
      | some m => simp [start_router, hfind, hca, himg m hfind]
    · intro a hca hnot
      have h1 : a ≠ "__default__" := fun he => hnot (by simp [he])
      have h2 : a ≠ "triage_agent" := fun he => hnot (by simp [he])
      have h3 : a ≠ "symptom_agent" := fun he => hnot (by simp [he])
      have h4 : a ≠ "programme_eligibility_agent" := fun he => hnot (by simp [he])
      have h5 : a ≠ "doctor_agent" := fun he => hnot (by simp [he])
      cases hfind : s.messages.reverse.find? (·.isHuman) with
      | none => simp [start_router, hfind, hca, h1, h2, h3, h4, h5]
      | some m => simp [start_router, hfind, hca, himg m hfind, h1, h2, h3, h4, h5]

/-- C7 witness: the three clauses applied at concrete states — an
unprocessed image with the doctor agent active routes to "prescription",
a successful prescription run marks the image processed, and a plain-text
message with the doctor agent active routes to "doctor". -/
theorem C7_witness :
    (c7ImgState.messages.reverse.find? (·.isHuman) = some imgMsg ∧
      contentHasImage imgMsg.content = true ∧
      c7ImgState.prescription_processed.getD false = false ∧
      findImageData [imgMsg] = some "u" ∧ ("u" : String) ≠ "") ∧
    start_router c7ImgState = "prescription" ∧
    (prescription_run [imgMsg] (Except.ok "out") (fun _ => none)).prescription_processed =
      some true ∧
    start_router c7TextState = "doctor" :=
  ⟨⟨by decide, by decide, by decide, by decide, by decide⟩,
    C7_entry_routing.1 c7ImgState imgMsg (by decide) (by decide) (by decide),
    C7_entry_routing.2.1 [imgMsg] "u" "out" (fun _ => none) (by decide) (by decide),
    ((C7_entry_routing.2.2 c7TextState
      (fun m hm => by
        have hev : c7TextState.messages.reverse.find? (·.isHuman) = some textMsg := by decide
        rw [hev] at hm
        cases hm
        exact Or.inl (by decide))).2.2.2.2.1) (by decide)⟩

lemma execute_foldl_map (pool : List (String × PyTool)) :
    ∀ (calls : List PyToolCall) (acc : List ToolMessage),
      calls.foldl (fun ms tc => ms ++ [execOne pool tc]) acc = acc ++ calls.map (execOne pool) := by
  intro calls
  induction calls with
  | nil => intro acc; simp
  | cons c cs ih => intro acc; simp [ih]

lemma execOne_spec (pool : List (String × PyTool)) (tc : PyToolCall) :
    (execOne pool tc).tool_call_id = tc.id ∧ (execOne pool tc).name = tc.name ∧
    ((pool.lookup tc.name = none ∧ (execOne pool tc).status = some "error") ∨
     (∃ t, pool.lookup tc.name = some t ∧
       ((∃ r, t tc.args = Except.ok r ∧ (execOne pool tc).status = none ∧
          (execOne pool tc).content = r) ∨
        (∃ e, t tc.args = Except.error e ∧ (execOne pool tc).status = some "error")))) := by
  cases hl : pool.lookup tc.name with
  | none => simp [execOne, hl]
  | some t =>
    cases hr : t tc.args with
    | ok r =>
      refine ⟨?_, ?_, Or.inr ⟨t, rfl, Or.inl ⟨r, hr, ?_, ?_⟩⟩⟩ <;> simp [execOne, hl, hr]
    | error e =>
      refine ⟨?_, ?_, Or.inr ⟨t, rfl, Or.inr ⟨e, hr, ?_⟩⟩⟩ <;> simp [execOne, hl, hr]

/-- C8: the Capability Pool batch executor returns exactly one message per
input call, computed independently per call (the result list is the map of
the per-call executor over the inputs, so no entry depends on any other);
entries line up with the inputs in order, each carrying the input's call id
and name, and each is either a success payload (no status) or an isolated
status="error" result produced when the name misses the cache or the
invocation raises. -/
theorem C8_batch_execution :
    ∀ (pool : List (String × PyTool)) (calls : List PyToolCall),
      execute_tool_calls pool calls = calls.map (execOne pool) ∧
      (execute_tool_calls pool calls).length = calls.length ∧
      List.Forall₂
        (fun (tm : ToolMessage) (tc : PyToolCall) =>
          tm.tool_call_id = tc.id ∧ tm.name = tc.name ∧
          ((pool.lookup tc.name = none ∧ tm.status = some "error") ∨
           (∃ t, pool.lookup tc.name = some t ∧
             ((∃ r, t tc.args = Except.ok r ∧ tm.status = none ∧ tm.content = r) ∨
              (∃ e, t tc.args = Except.error e ∧ tm.status = some "error")))))
        (execute_tool_calls pool calls) calls := by
  intro pool calls
  have hmap : execute_tool_calls pool calls = calls.map (execOne pool) := by
    have := execute_foldl_map pool calls []
    simpa [execute_tool_calls] using this
  refine ⟨hmap, by rw [hmap]; simp, ?_⟩
  rw [hmap]
  clear hmap
  induction calls with
  | nil => exact List.Forall₂.nil
  | cons c cs ih => exact List.Forall₂.cons (execOne_spec pool c) ih

end SehatLink
